import Mathlib

/-!
Shallow embedding of the labslack reliable-delivery engine and metrics
registry (src/labslack/relay/message_relay.py, src/labslack/metrics.py,
src/labslack/notifications/service.py, src/labslack/database/models.py).

Python floats are modelled as rationals (ℚ); Python dicts as
insertion-ordered association lists; mutation as explicit state passing.
-/

namespace LabSlack

/-! ## Metrics (src/labslack/metrics.py) -/

/-- One label key/value pair, as passed to `.labels(key=value)`. -/
abbrev Label := String × String

/-- Python tuple comparison on (key, value) pairs of strings, as used by
`tuple(sorted(self._labels.items()))`: compare keys first, then values. -/
def labelLe (a b : Label) : Bool :=
  if a.1 < b.1 then true
  else if b.1 < a.1 then false
  else if a.2 < b.2 then true
  else if b.2 < a.2 then false
  else true

/-- Insert a pair into a list sorted by `labelLe` (insertion sort step). -/
def insertLabel (x : Label) : List Label → List Label
  | [] => [x]
  | y :: ys => if labelLe x y then x :: y :: ys else y :: insertLabel x ys

/-- Embeds `tuple(sorted(labels.items()))`: the canonical key of a label
combination inside the `_labeled_values` dict. -/
def sortLabels (ls : List Label) : List Label :=
  ls.foldr insertLabel []

/-- Key type of the `_labeled_values` dict. -/
abbrev LabelKey := List Label

/-- Embeds `dict.get(key)` on `_labeled_values` (first match in the
insertion-ordered association list). -/
def lookupLV (k : LabelKey) : List (LabelKey × ℚ) → Option ℚ
  | [] => none
  | (k₂, v) :: rest => if k₂ = k then some v else lookupLV k rest

/-- Embeds `dict[key] = v`: update in place if present, else append
(Python dicts append new keys in insertion order). -/
def setLV (k : LabelKey) (v : ℚ) : List (LabelKey × ℚ) → List (LabelKey × ℚ)
  | [] => [(k, v)]
  | (k₂, v₂) :: rest => if k₂ = k then (k, v) :: rest else (k₂, v₂) :: setLV k v rest

/-- State of a `Counter` parent object together with the `_labeled_values`
dict that every labeled view created from it shares (`labels()` copies the
reference to `_labeled_values`, so parent and views mutate one store).
`value` is the parent's `_value` field. A view is identified by its
`_labels` dict, modelled as the (nonempty) list of pairs passed to
`labels(**kwargs)`; the unlabeled parent is the empty list. -/
structure CounterState where
  name : String
  description : String
  value : ℚ
  labeledValues : List (LabelKey × ℚ)
deriving DecidableEq, Repr

/-- Embeds `Counter(name, description)`: `_value = 0.0`, empty dict. -/
def CounterState.init (name description : String) : CounterState :=
  ⟨name, description, 0, []⟩

/-- Embeds the `Counter.value` property as read through the view whose
`_labels` is `ls`: labeled views read `_labeled_values.get(key, 0.0)`,
the unlabeled parent reads `_value`. -/
def Counter.viewValue (ls : List Label) (s : CounterState) : ℚ :=
  if ls ≠ [] then (lookupLV (sortLabels ls) s.labeledValues).getD 0
  else s.value

/-- Embeds `Counter.inc(amount)` called through the view whose `_labels`
is `ls`, acting on the shared state: labeled views bump their key in
`_labeled_values`, the unlabeled parent bumps `_value`. -/
def Counter.inc (ls : List Label) (amount : ℚ) (s : CounterState) : CounterState :=
  if ls ≠ [] then
    let key := sortLabels ls
    { s with labeledValues :=
        setLV key ((lookupLV key s.labeledValues).getD 0 + amount) s.labeledValues }
  else { s with value := s.value + amount }

/-- Result shape of `Counter.to_dict()`: the `labeled_values` entry is
present only when the `_labeled_values` dict is non-empty (truthy). -/
structure CounterDict where
  name : String
  type : String
  value : ℚ
  labeledValues : Option (List (LabelKey × ℚ))
deriving DecidableEq, Repr

/-- Embeds `Counter.to_dict()`. -/
def Counter.to_dict (s : CounterState) : CounterDict :=
  { name := s.name
    type := "counter"
    value := s.value
    labeledValues := if s.labeledValues ≠ [] then some s.labeledValues else none }

/-- State of a `Gauge` (same layout as `Counter`). -/
structure GaugeState where
  name : String
  description : String
  value : ℚ
  labeledValues : List (LabelKey × ℚ)
deriving DecidableEq, Repr

/-- Embeds `Gauge(name, description)`. -/
def GaugeState.init (name description : String) : GaugeState :=
  ⟨name, description, 0, []⟩

/-- State of a `Histogram`: unlabeled `_count`/`_sum` plus `_labeled_stats`. -/
structure HistogramState where
  name : String
  description : String
  count : Nat
  sum : ℚ
  labeledStats : List (LabelKey × (Nat × ℚ))
deriving DecidableEq, Repr

/-- Embeds `Histogram(name, description)`. -/
def HistogramState.init (name description : String) : HistogramState :=
  ⟨name, description, 0, 0, []⟩

/-- A metric stored in the registry's `_metrics` dict. -/
inductive Metric where
  | counter (s : CounterState)
  | gauge (s : GaugeState)
  | histogram (s : HistogramState)
deriving DecidableEq, Repr

/-- Snapshot of one metric as produced by its `to_dict()`; for the claims
only the counter snapshot carries structure. -/
inductive MetricSnapshot where
  | counter (d : CounterDict)
  | gauge (name : String) (value : ℚ) (labeledValues : Option (List (LabelKey × ℚ)))
  | histogram (name : String) (count : Nat) (sum : ℚ)
deriving DecidableEq, Repr

/-- Embeds `metric.to_dict()` dispatched on the metric kind. -/
def Metric.to_dict : Metric → MetricSnapshot
  | .counter s => .counter (Counter.to_dict s)
  | .gauge s => .gauge s.name s.value
      (if s.labeledValues ≠ [] then some s.labeledValues else none)
  | .histogram s => .histogram s.name s.count s.sum

/-- The registry's `_metrics` dict (insertion-ordered). -/
structure MetricsRegistry where
  metrics : List (String × Metric)
deriving DecidableEq, Repr

/-- Lookup in `_metrics` (first match). -/
def lookupMetric (name : String) : List (String × Metric) → Option Metric
  | [] => none
  | (n, m) :: rest => if n = name then some m else lookupMetric name rest

/-- Embeds `MetricsRegistry.counter(name, description)`: if `name` is not
in `_metrics`, store a fresh `Counter(name, description)` (Python dicts
append the new key) and return it; if the stored metric is a `Counter`,
return that stored instance unchanged; otherwise raise `TypeError`
(modelled as `Except.error`). The returned `CounterState` together with
the registry and the name is the "instance": mutation through any handle
for `name` acts on the one stored state. -/
def MetricsRegistry.counter (name description : String) (r : MetricsRegistry) :
    Except String (CounterState × MetricsRegistry) :=
  match lookupMetric name r.metrics with
  | none => .ok (CounterState.init name description,
      ⟨r.metrics ++ [(name, Metric.counter (CounterState.init name description))]⟩)
  | some (.counter s) => .ok (s, r)
  | some _ => .error ("Metric " ++ name ++ " is not a Counter")

/-- Embeds `MetricsRegistry.gauge(name, description)`. -/
def MetricsRegistry.gauge (name description : String) (r : MetricsRegistry) :
    Except String (GaugeState × MetricsRegistry) :=
  match lookupMetric name r.metrics with
  | none => .ok (GaugeState.init name description,
      ⟨r.metrics ++ [(name, Metric.gauge (GaugeState.init name description))]⟩)
  | some (.gauge s) => .ok (s, r)
  | some _ => .error ("Metric " ++ name ++ " is not a Gauge")

/-- Embeds `MetricsRegistry.histogram(name, description)`. -/
def MetricsRegistry.histogram (name description : String) (r : MetricsRegistry) :
    Except String (HistogramState × MetricsRegistry) :=
  match lookupMetric name r.metrics with
  | none => .ok (HistogramState.init name description,
      ⟨r.metrics ++ [(name, Metric.histogram (HistogramState.init name description))]⟩)
  | some (.histogram s) => .ok (s, r)
  | some _ => .error ("Metric " ++ name ++ " is not a Histogram")

/-- Lookup in the snapshot list produced by `get_all`. -/
def lookupSnap (name : String) : List (String × MetricSnapshot) → Option MetricSnapshot
  | [] => none
  | (n, d) :: rest => if n = name then some d else lookupSnap name rest

/-- Embeds `MetricsRegistry.get_all()`: per name, the metric's `to_dict()`. -/
def MetricsRegistry.get_all (r : MetricsRegistry) : List (String × MetricSnapshot) :=
  r.metrics.map (fun p => (p.1, p.2.to_dict))

/-- Apply `Counter.inc` through a view (labels `ls`) to the counter stored
under `name`; non-counter entries and other names are untouched. -/
def incCounterList (name : String) (ls : List Label) (amount : ℚ) :
    List (String × Metric) → List (String × Metric)
  | [] => []
  | (n, m) :: rest =>
    if n = name then
      match m with
      | .counter s =>
          (n, Metric.counter (Counter.inc ls amount s)) :: incCounterList name ls amount rest
      | m => (n, m) :: incCounterList name ls amount rest
    else (n, m) :: incCounterList name ls amount rest

/-- Calling `.inc(amount)` through a view (labels `ls`) of the counter the
registry stores under `name`: the state-passing rendering of mutating the
shared object obtained from the registry. -/
def MetricsRegistry.incCounter (name : String) (ls : List Label) (amount : ℚ)
    (r : MetricsRegistry) : MetricsRegistry :=
  ⟨incCounterList name ls amount r.metrics⟩

/-! ## Message relay (src/labslack/relay/message_relay.py) -/

/-- The module-level `RETRYABLE_ERRORS` frozenset. -/
def RETRYABLE_ERRORS : List String :=
  ["rate_limited", "service_unavailable", "request_timeout", "internal_error"]

/-- The module-level `NON_RETRYABLE_ERRORS` frozenset. -/
def NON_RETRYABLE_ERRORS : List String :=
  ["channel_not_found", "not_in_channel", "invalid_auth", "token_revoked",
   "account_inactive", "missing_scope"]

/-- Embeds `MessageRelay._is_retryable_error`. -/
def is_retryable_error (error_code : String) : Bool :=
  RETRYABLE_ERRORS.contains error_code

/-- The payload of a `SlackApiError` as the relay reads it:
`response.data.get("error")` (absent key modelled as `none`) and the
`Retry-After` header when present and non-empty (already an integer,
since the code applies `int`). -/
structure SlackApiErrorData where
  errorCode : Option String
  retryAfter : Option Nat
deriving DecidableEq, Repr

/-- Outcome of one `chat_postMessage` call: success, or a `SlackApiError`. -/
inductive SendOutcome where
  | ok
  | err (e : SlackApiErrorData)
deriving DecidableEq, Repr

/-- The configuration fields `_send_message_with_retry` consumes
(`Config.relay_channel_id`, `Config.max_retries`, `Config.retry_base_delay`). -/
structure RelayConfig where
  relay_channel_id : Option String
  max_retries : Nat
  retry_base_delay : ℚ
deriving DecidableEq, Repr

/-- Python truthiness of `config.relay_channel_id`: `None` and the empty
string are falsy. -/
def channelConfigured : Option String → Bool
  | none => false
  | some s => s ≠ ""

/-- Embeds `MessageRelay._get_retry_delay(attempt, error)`:
`error.response.data.get("error", "")`; for `rate_limited` with a truthy
`Retry-After` header return that hint, else `retry_base_delay * 2**attempt`. -/
def get_retry_delay (retry_base_delay : ℚ) (attempt : Nat) (e : SlackApiErrorData) : ℚ :=
  let error_code := e.errorCode.getD ""
  if error_code = "rate_limited" then
    match e.retryAfter with
    | some h => (h : ℚ)
    | none => retry_base_delay * 2 ^ attempt
  else retry_base_delay * 2 ^ attempt

/-- Observable trace of one `_send_message_with_retry` call: the returned
bool, how many times `chat_postMessage` was invoked, the `asyncio.sleep`
delays in order, and the `(source, error)` label pairs incremented on the
retry counter and on the error counter. -/
structure SendTrace where
  success : Bool
  attempts : Nat
  delays : List ℚ
  retryIncs : List (String × String)
  errorIncs : List (String × String)
deriving DecidableEq, Repr

/-- The `for attempt in range(max_retries + 1)` loop body of
`_send_message_with_retry`, with `f i` the outcome of the attempt at
index `i` and `fuel` the remaining iterations (`max_retries + 1 - attempt`
at the initial call). Falling out of the loop returns `False`. -/
def sendLoop (cfg : RelayConfig) (source : String) (f : Nat → SendOutcome) :
    Nat → Nat → SendTrace
  | _, 0 => ⟨false, 0, [], [], []⟩
  | attempt, fuel + 1 =>
    match f attempt with
    | .ok => ⟨true, 1, [], [], []⟩
    | .err e =>
      let error_code := e.errorCode.getD "unknown"
      if is_retryable_error error_code then
        if attempt < cfg.max_retries then
          let delay := get_retry_delay cfg.retry_base_delay attempt e
          let rest := sendLoop cfg source f (attempt + 1) fuel
          ⟨rest.success, rest.attempts + 1, delay :: rest.delays,
           (source, error_code) :: rest.retryIncs, rest.errorIncs⟩
        else
          ⟨false, 1, [], [], [(source, error_code)]⟩
      else
        ⟨false, 1, [], [], [(source, error_code)]⟩

/-- Embeds `MessageRelay._send_message_with_retry(text, source)`: the
missing-channel precondition check, then the retry loop. -/
def send_message_with_retry (cfg : RelayConfig) (source : String)
    (f : Nat → SendOutcome) : SendTrace :=
  if channelConfigured cfg.relay_channel_id then
    sendLoop cfg source f 0 (cfg.max_retries + 1)
  else
    ⟨false, 0, [], [], [(source, "no_channel")]⟩

/-- An attempt outcome that is a failure with a retryable code, after the
loop's `data.get("error", "unknown")` defaulting. -/
def isRetryableFailure : SendOutcome → Bool
  | .ok => false
  | .err e => is_retryable_error (e.errorCode.getD "unknown")

/-! ## Notification service (src/labslack/notifications/service.py,
src/labslack/database/models.py) -/

/-- The `NotificationStatus` enum. -/
inductive NotificationStatus where
  | sent
  | failed
deriving DecidableEq, Repr

/-- Result of `SlackNotifier.send_notification` (`SlackNotifyResult`). -/
structure SlackNotifyResult where
  success : Bool
  channel : Option String
  ts : Option String
  error : Option String
deriving DecidableEq, Repr

/-- The `NotificationHistory` record. The UTC `created_at` datetime is
modelled opaquely by its ISO rendering. -/
structure NotificationHistory where
  id : String
  cluster_id : String
  cluster_name : String
  notification_type : String
  message : String
  status : NotificationStatus
  created_at : String
  error_message : Option String
  slack_channel : Option String
  slack_ts : Option String
deriving DecidableEq, Repr

/-- Embeds `NotificationHistory.create`: the generated `uuid4()` and
`datetime.now(timezone.utc)` are effects, passed in as `freshId` and
`now`; every other field is copied from the arguments. -/
def NotificationHistory.create (freshId now cluster_id cluster_name
    notification_type message : String) (status : NotificationStatus)
    (error_message slack_channel slack_ts : Option String) : NotificationHistory :=
  { id := freshId
    cluster_id := cluster_id
    cluster_name := cluster_name
    notification_type := notification_type
    message := message
    status := status
    created_at := now
    error_message := error_message
    slack_channel := slack_channel
    slack_ts := slack_ts }

/-- The `NotificationResult` dataclass returned by the service. -/
structure NotificationResult where
  success : Bool
  notification_id : String
  channel : Option String
  timestamp : Option String
  error : Option String
deriving DecidableEq, Repr

/-- What one `send_notification` call produced: the returned result, the
history record it built, and the log line emitted by the persistence
`try/except`. -/
structure SendNotificationOutput where
  result : NotificationResult
  history : NotificationHistory
  saveLog : String
deriving DecidableEq, Repr

/-- Embeds `NotificationService.send_notification` from the point where the
formatted message exists: `slackResult` is the notifier outcome,
`freshId`/`now` the values `NotificationHistory.create` generates, and
`saveResult` the outcome of `await save_notification(history)`. A
persistence exception is logged and swallowed; the returned
`NotificationResult` is built the same way on both paths. -/
def send_notification (cluster_id cluster_name notification_type message : String)
    (slackResult : SlackNotifyResult) (freshId now : String)
    (saveResult : Except String Unit) : SendNotificationOutput :=
  let status := if slackResult.success then NotificationStatus.sent
                else NotificationStatus.failed
  let error_message := if slackResult.success then none else slackResult.error
  let history := NotificationHistory.create freshId now cluster_id cluster_name
    notification_type message status error_message slackResult.channel slackResult.ts
  let saveLog := match saveResult with
    | .ok _ => "Notification recorded in history"
    | .error _ => "Failed to save notification history"
  { result :=
      { success := slackResult.success
        notification_id := history.id
        channel := slackResult.channel
        timestamp := some history.created_at
        error := slackResult.error }
    history := history
    saveLog := saveLog }

/-! ## Helper lemmas -/

lemma lookupLV_setLV_same (k : LabelKey) (v : ℚ) :
    ∀ m, lookupLV k (setLV k v m) = some v := by
  intro m
  induction m with
  | nil => simp [setLV, lookupLV]
  | cons hd tl ih =>
    obtain ⟨k₂, v₂⟩ := hd
    by_cases h : k₂ = k
    · subst h
      simp [setLV, lookupLV]
    · simp [setLV, lookupLV, h, ih]

lemma lookupLV_setLV_ne (k k₂ : LabelKey) (v : ℚ) (hne : k ≠ k₂) :
    ∀ m, lookupLV k (setLV k₂ v m) = lookupLV k m := by
  have hne₂ : k₂ ≠ k := Ne.symm hne
  intro m
  induction m with
  | nil => simp [setLV, lookupLV, hne₂]
  | cons hd tl ih =>
    obtain ⟨k₃, v₃⟩ := hd
    by_cases h : k₃ = k₂
    · subst h
      simp [setLV, lookupLV, hne₂]
    · by_cases h₄ : k₃ = k
      · subst h₄
        simp [setLV, lookupLV, h]
      · simp [setLV, lookupLV, h, h₄, ih]

lemma setLV_ne_nil (k : LabelKey) (v : ℚ) : ∀ m, setLV k v m ≠ [] := by
  intro m
  cases m with
  | nil => simp [setLV]
  | cons hd tl =>
    obtain ⟨k₂, v₂⟩ := hd
    by_cases h : k₂ = k <;> simp [setLV, h]

lemma lookupMetric_append_self (name : String) (m : Metric) :
    ∀ l, lookupMetric name l = none →
      lookupMetric name (l ++ [(name, m)]) = some m := by
  intro l
  induction l with
  | nil => intro _; simp [lookupMetric]
  | cons hd tl ih =>
    intro h
    obtain ⟨n, m₂⟩ := hd
    by_cases hn : n = name
    · simp [lookupMetric, hn] at h
    · simp [lookupMetric, hn] at h ⊢
      exact ih h

lemma lookupMetric_incCounterList (name : String) (ls : List Label) (a : ℚ) :
    ∀ (l : List (String × Metric)) (s : CounterState),
      lookupMetric name l = some (Metric.counter s) →
      lookupMetric name (incCounterList name ls a l)
        = some (Metric.counter (Counter.inc ls a s)) := by
  intro l
  induction l with
  | nil => intro s h; simp [lookupMetric] at h
  | cons hd tl ih =>
    intro s h
    obtain ⟨n, m⟩ := hd
    by_cases hn : n = name
    · subst hn
      simp [lookupMetric] at h
      subst h
      simp [incCounterList, lookupMetric]
    · simp only [lookupMetric, if_neg hn] at h
      have := ih s h
      simp [incCounterList, lookupMetric, hn, this]

lemma lookupSnap_get_all (name : String) :
    ∀ (l : List (String × Metric)),
      lookupSnap name (MetricsRegistry.get_all ⟨l⟩)
        = (lookupMetric name l).map Metric.to_dict := by
  intro l
  induction l with
  | nil => simp [MetricsRegistry.get_all, lookupMetric, lookupSnap]
  | cons hd tl ih =>
    obtain ⟨n, m⟩ := hd
    by_cases hn : n = name
    · subst hn
      simp [MetricsRegistry.get_all, lookupMetric, lookupSnap]
    · simpa [MetricsRegistry.get_all, lookupMetric, lookupSnap, hn] using ih

lemma counter_ok_lookupMetric (name d : String) (r r₁ : MetricsRegistry)
    (c : CounterState) (h : MetricsRegistry.counter name d r = .ok (c, r₁)) :
    lookupMetric name r₁.metrics = some (Metric.counter c) := by
  unfold MetricsRegistry.counter at h
  rcases hm : lookupMetric name r.metrics with _ | m
  · rw [hm] at h
    simp only [Except.ok.injEq, Prod.mk.injEq] at h
    obtain ⟨hc, hr₁⟩ := h
    subst hc
    subst hr₁
    exact lookupMetric_append_self name _ r.metrics hm
  · rw [hm] at h
    cases m with
    | counter s =>
      simp only [Except.ok.injEq, Prod.mk.injEq] at h
      obtain ⟨hc, hr₁⟩ := h
      subst hc
      subst hr₁
      exact hm
    | gauge s => simp at h
    | histogram s => simp at h

lemma gauge_ok_lookupMetric (name d : String) (r r₁ : MetricsRegistry)
    (g : GaugeState) (h : MetricsRegistry.gauge name d r = .ok (g, r₁)) :
    lookupMetric name r₁.metrics = some (Metric.gauge g) := by
  unfold MetricsRegistry.gauge at h
  rcases hm : lookupMetric name r.metrics with _ | m
  · rw [hm] at h
    simp only [Except.ok.injEq, Prod.mk.injEq] at h
    obtain ⟨hg, hr₁⟩ := h
    subst hg
    subst hr₁
    exact lookupMetric_append_self name _ r.metrics hm
  · rw [hm] at h
    cases m with
    | counter s => simp at h
    | gauge s =>
      simp only [Except.ok.injEq, Prod.mk.injEq] at h
      obtain ⟨hg, hr₁⟩ := h
      subst hg
      subst hr₁
      exact hm
    | histogram s => simp at h

lemma histogram_ok_lookupMetric (name d : String) (r r₁ : MetricsRegistry)
    (hg : HistogramState) (h : MetricsRegistry.histogram name d r = .ok (hg, r₁)) :
    lookupMetric name r₁.metrics = some (Metric.histogram hg) := by
  unfold MetricsRegistry.histogram at h
  rcases hm : lookupMetric name r.metrics with _ | m
  · rw [hm] at h
    simp only [Except.ok.injEq, Prod.mk.injEq] at h
    obtain ⟨hh, hr₁⟩ := h
    subst hh
    subst hr₁
    exact lookupMetric_append_self name _ r.metrics hm
  · rw [hm] at h
    cases m with
    | counter s => simp at h
    | gauge s => simp at h
    | histogram s =>
      simp only [Except.ok.injEq, Prod.mk.injEq] at h
      obtain ⟨hh, hr₁⟩ := h
      subst hh
      subst hr₁
      exact hm

lemma sendLoop_attempts_le (cfg : RelayConfig) (source : String) (f : Nat → SendOutcome) :
    ∀ fuel attempt, (sendLoop cfg source f attempt fuel).attempts ≤ fuel := by
  intro fuel
  induction fuel with
  | zero => intro attempt; simp [sendLoop]
  | succ n ih =>
    intro attempt
    simp only [sendLoop]
    cases f attempt with
    | ok => simp
    | err e =>
      dsimp only
      split
      · split
        · exact Nat.succ_le_succ (ih (attempt + 1))
        · dsimp only
          omega
      · dsimp only
        omega

lemma sendLoop_all_retryable (cfg : RelayConfig) (source : String) (f : Nat → SendOutcome)
    (hall : ∀ i, isRetryableFailure (f i) = true) :
    ∀ fuel attempt, attempt + fuel = cfg.max_retries + 1 →
      (sendLoop cfg source f attempt fuel).attempts = fuel ∧
      (sendLoop cfg source f attempt fuel).success = false := by
  intro fuel
  induction fuel with
  | zero => intro attempt h; simp [sendLoop]
  | succ n ih =>
    intro attempt h
    have hf := hall attempt
    simp only [sendLoop]
    cases hfa : f attempt with
    | ok => rw [hfa] at hf; simp [isRetryableFailure] at hf
    | err e =>
      rw [hfa] at hf
      simp only [isRetryableFailure] at hf
      dsimp only
      rw [if_pos hf]
      by_cases hlt : attempt < cfg.max_retries
      · rw [if_pos hlt]
        have hrec := ih (attempt + 1) (by omega)
        exact ⟨by simp [hrec.1], by simp [hrec.2]⟩
      · rw [if_neg hlt]
        refine ⟨?_, rfl⟩
        dsimp only
        omega

/-! ## Claims -/

/-- Claim C1: with `max_retries = N`, `send_message_with_retry` performs at most
`N + 1` attempts against the sender; when every attempt fails with a
retryable error code, it performs exactly `N + 1` attempts and returns a
failed outcome. -/
theorem relay_retryable_attempt_bound (cfg : RelayConfig) (source : String)
    (f : Nat → SendOutcome) :
    (send_message_with_retry cfg source f).attempts ≤ cfg.max_retries + 1 ∧
    ((∀ i, isRetryableFailure (f i) = true) →
      channelConfigured cfg.relay_channel_id = true →
      (send_message_with_retry cfg source f).attempts = cfg.max_retries + 1 ∧
      (send_message_with_retry cfg source f).success = false) := by
  constructor
  · unfold send_message_with_retry
    split
    · exact sendLoop_attempts_le cfg source f _ 0
    · simp
  · intro hall hch
    unfold send_message_with_retry
    rw [if_pos hch]
    exact sendLoop_all_retryable cfg source f hall _ 0 (by omega)

/-- Witness for C1: max_retries = 2, every attempt rate_limited, exactly
three attempts, failed. -/
theorem relay_retryable_attempt_bound_witness :
    (send_message_with_retry ⟨some "C123", 2, 1⟩ "dm"
      (fun _ => SendOutcome.err ⟨some "rate_limited", none⟩)).attempts = 2 + 1 ∧
    (send_message_with_retry ⟨some "C123", 2, 1⟩ "dm"
      (fun _ => SendOutcome.err ⟨some "rate_limited", none⟩)).success = false :=
  (relay_retryable_attempt_bound ⟨some "C123", 2, 1⟩ "dm"
      (fun _ => SendOutcome.err ⟨some "rate_limited", none⟩)).2
    (fun _ => by decide) (by decide)

/-- Claim C2: every code in the Fatal set is non-retryable, and a first attempt
failing with any non-retryable code (codes in neither set default to
non-retryable, fail-closed) yields exactly one attempt, a failed outcome,
no backoff delay and no retry-counter increment. -/
theorem relay_fatal_single_attempt :
    (∀ c, c ∈ NON_RETRYABLE_ERRORS → is_retryable_error c = false) ∧
    ∀ (cfg : RelayConfig) (source : String) (f : Nat → SendOutcome)
      (e : SlackApiErrorData),
      channelConfigured cfg.relay_channel_id = true →
      f 0 = SendOutcome.err e →
      is_retryable_error (e.errorCode.getD "unknown") = false →
      (send_message_with_retry cfg source f).attempts = 1 ∧
      (send_message_with_retry cfg source f).success = false ∧
      (send_message_with_retry cfg source f).delays = [] ∧
      (send_message_with_retry cfg source f).retryIncs = [] := by
  constructor
  · decide
  · intro cfg source f e hch hf0 hnr
    unfold send_message_with_retry
    rw [if_pos hch]
    simp only [sendLoop, hf0]
    rw [if_neg (by simp [hnr])]
    exact ⟨rfl, rfl, rfl, rfl⟩

/-- Witness for C2: channel_not_found on the first attempt, one attempt,
failed, no delay, no retry. -/
theorem relay_fatal_single_attempt_witness :
    (send_message_with_retry ⟨some "C123", 3, 1⟩ "dm"
      (fun _ => SendOutcome.err ⟨some "channel_not_found", none⟩)).attempts = 1 ∧
    (send_message_with_retry ⟨some "C123", 3, 1⟩ "dm"
      (fun _ => SendOutcome.err ⟨some "channel_not_found", none⟩)).success = false ∧
    (send_message_with_retry ⟨some "C123", 3, 1⟩ "dm"
      (fun _ => SendOutcome.err ⟨some "channel_not_found", none⟩)).delays = [] ∧
    (send_message_with_retry ⟨some "C123", 3, 1⟩ "dm"
      (fun _ => SendOutcome.err ⟨some "channel_not_found", none⟩)).retryIncs = [] :=
  relay_fatal_single_attempt.2 ⟨some "C123", 3, 1⟩ "dm"
    (fun _ => SendOutcome.err ⟨some "channel_not_found", none⟩)
    ⟨some "channel_not_found", none⟩ (by decide) rfl (by decide)

/-- Claim C3: for a rate_limited failure with a server retry-after hint the
computed delay is the hint verbatim; otherwise it is
`retry_base_delay * 2 ^ attempt`; and with base delay 1/10, max_retries 3
and every attempt failing with request_timeout the observed delays are
1/10, 2/10, 4/10 in order. -/
theorem backoff_delay_policy :
    (∀ (bd : ℚ) (i : Nat) (e : SlackApiErrorData) (h : Nat),
      e.errorCode.getD "" = "rate_limited" → e.retryAfter = some h →
      get_retry_delay bd i e = (h : ℚ)) ∧
    (∀ (bd : ℚ) (i : Nat) (e : SlackApiErrorData),
      (e.errorCode.getD "" ≠ "rate_limited" ∨ e.retryAfter = none) →
      get_retry_delay bd i e = bd * 2 ^ i) ∧
    (send_message_with_retry ⟨some "C123", 3, 1/10⟩ "dm"
      (fun _ => SendOutcome.err ⟨some "request_timeout", none⟩)).delays
      = [1/10, 2/10, 4/10] := by
  refine ⟨?_, ?_, ?_⟩
  · intro bd i e h h₁ h₂
    simp [get_retry_delay, h₁, h₂]
  · intro bd i e h₁
    rcases h₁ with h₁ | h₁
    · simp [get_retry_delay, h₁]
    · by_cases hc : e.errorCode.getD "" = "rate_limited" <;>
        simp [get_retry_delay, hc, h₁]
  · simp only [send_message_with_retry, channelConfigured, sendLoop,
      is_retryable_error, RETRYABLE_ERRORS, get_retry_delay]
    norm_num
    rfl

/-- Witness for C3: retry-after hint 5 wins over the exponential value;
request_timeout at attempt index 2 gives 4/10. -/
theorem backoff_delay_policy_witness :
    get_retry_delay 1 0 ⟨some "rate_limited", some 5⟩ = ((5 : Nat) : ℚ) ∧
    get_retry_delay (1/10) 2 ⟨some "request_timeout", none⟩ = (1/10) * 2 ^ 2 :=
  ⟨backoff_delay_policy.1 1 0 ⟨some "rate_limited", some 5⟩ 5 rfl rfl,
   backoff_delay_policy.2.1 (1/10) 2 ⟨some "request_timeout", none⟩
     (Or.inl (by decide))⟩

/-- Claim C4: with no relay channel configured the send fails immediately: zero
sender invocations, a failed outcome, a single error-counter increment
tagged no_channel, and that tag is in neither the Retryable nor the Fatal
code set. -/
theorem relay_no_channel_precondition (cfg : RelayConfig) (source : String)
    (f : Nat → SendOutcome)
    (h : channelConfigured cfg.relay_channel_id = false) :
    (send_message_with_retry cfg source f).success = false ∧
    (send_message_with_retry cfg source f).attempts = 0 ∧
    (send_message_with_retry cfg source f).errorIncs = [(source, "no_channel")] ∧
    (send_message_with_retry cfg source f).retryIncs = [] ∧
    "no_channel" ∉ RETRYABLE_ERRORS ∧ "no_channel" ∉ NON_RETRYABLE_ERRORS := by
  unfold send_message_with_retry
  rw [h]
  exact ⟨rfl, rfl, rfl, rfl, by decide, by decide⟩

/-- Witness for C4: relay_channel_id unset. -/
theorem relay_no_channel_precondition_witness :
    (send_message_with_retry ⟨none, 3, 1⟩ "webhook" (fun _ => SendOutcome.ok)).success
      = false ∧
    (send_message_with_retry ⟨none, 3, 1⟩ "webhook" (fun _ => SendOutcome.ok)).attempts
      = 0 ∧
    (send_message_with_retry ⟨none, 3, 1⟩ "webhook" (fun _ => SendOutcome.ok)).errorIncs
      = [("webhook", "no_channel")] ∧
    (send_message_with_retry ⟨none, 3, 1⟩ "webhook" (fun _ => SendOutcome.ok)).retryIncs
      = [] ∧
    "no_channel" ∉ RETRYABLE_ERRORS ∧ "no_channel" ∉ NON_RETRYABLE_ERRORS :=
  relay_no_channel_precondition ⟨none, 3, 1⟩ "webhook" (fun _ => SendOutcome.ok) rfl

/-- Claim C5: incrementing a labeled view of the counter stored under `name`
mutates only that label combination inside the shared store: the value
observed through a view with a different label key is unchanged, and
after a second labeled increment both label combinations are visible in
`get_all()` under the same metric name. -/
theorem counter_labeled_view_isolation
    (r : MetricsRegistry) (name : String) (s : CounterState)
    (L₁ L₂ : List Label) (a b : ℚ)
    (h₁ : L₁ ≠ []) (h₂ : L₂ ≠ []) (hk : sortLabels L₁ ≠ sortLabels L₂)
    (hr : lookupMetric name r.metrics = some (Metric.counter s)) :
    lookupMetric name ((r.incCounter name L₁ a).metrics)
      = some (Metric.counter (Counter.inc L₁ a s)) ∧
    Counter.viewValue L₂ (Counter.inc L₁ a s) = Counter.viewValue L₂ s ∧
    ∃ lv : List (LabelKey × ℚ),
      lookupSnap name
          (MetricsRegistry.get_all ((r.incCounter name L₁ a).incCounter name L₂ b))
        = some (MetricSnapshot.counter
            (Counter.to_dict (Counter.inc L₂ b (Counter.inc L₁ a s)))) ∧
      (Counter.to_dict (Counter.inc L₂ b (Counter.inc L₁ a s))).labeledValues
        = some lv ∧
      (lookupLV (sortLabels L₁) lv).isSome = true ∧
      (lookupLV (sortLabels L₂) lv).isSome = true := by
  have hstep₁ := lookupMetric_incCounterList name L₁ a r.metrics s hr
  have hstep₂ := lookupMetric_incCounterList name L₂ b
    (incCounterList name L₁ a r.metrics) (Counter.inc L₁ a s) hstep₁
  refine ⟨hstep₁, ?_, ?_⟩
  · unfold Counter.viewValue Counter.inc
    rw [if_pos h₁, if_pos h₂, if_pos h₂]
    dsimp only
    rw [lookupLV_setLV_ne _ _ _ (Ne.symm hk)]
  · refine ⟨(Counter.inc L₂ b (Counter.inc L₁ a s)).labeledValues, ?_, ?_, ?_, ?_⟩
    · rw [show ((r.incCounter name L₁ a).incCounter name L₂ b)
          = (⟨incCounterList name L₂ b (incCounterList name L₁ a r.metrics)⟩ :
              MetricsRegistry) from rfl]
      rw [lookupSnap_get_all name (incCounterList name L₂ b
        (incCounterList name L₁ a r.metrics))]
      rw [hstep₂]
      rfl
    · unfold Counter.to_dict
      rw [if_pos]
      unfold Counter.inc
      rw [if_pos h₂]
      exact setLV_ne_nil _ _ _
    · unfold Counter.inc
      rw [if_pos h₂, if_pos h₁]
      dsimp only
      rw [lookupLV_setLV_ne _ _ _ hk, lookupLV_setLV_same]
      rfl
    · unfold Counter.inc
      rw [if_pos h₂]
      dsimp only
      rw [lookupLV_setLV_same]
      rfl

/-- Witness for C5: one counter in the registry, views source=dm and
source=webhook. -/
theorem counter_labeled_view_isolation_witness :
    Counter.viewValue [("source", "webhook")]
        (Counter.inc [("source", "dm")] 1 (CounterState.init "c" "d"))
      = Counter.viewValue [("source", "webhook")] (CounterState.init "c" "d") :=
  (counter_labeled_view_isolation
    ⟨[("c", Metric.counter (CounterState.init "c" "d"))]⟩ "c"
    (CounterState.init "c" "d") [("source", "dm")] [("source", "webhook")] 1 2
    (by decide) (by decide) (by decide) (by decide)).2.1

/-- Claim C6: for each metric kind (counter, gauge, histogram), asking the
registry again under a name that already holds a metric of that kind
returns the identical stored instance and leaves the registry unchanged —
so for counters, increments through either handle act on the single state
stored under that name — while asking under the same name for either of
the two other kinds is an error instead of an instance. -/
theorem registry_metric_identity (r : MetricsRegistry) (name d₁ d₂ : String) :
    (∀ (c : CounterState) (r₁ : MetricsRegistry),
      MetricsRegistry.counter name d₁ r = .ok (c, r₁) →
      MetricsRegistry.counter name d₂ r₁ = .ok (c, r₁) ∧
      MetricsRegistry.gauge name d₂ r₁
        = .error ("Metric " ++ name ++ " is not a Gauge") ∧
      MetricsRegistry.histogram name d₂ r₁
        = .error ("Metric " ++ name ++ " is not a Histogram") ∧
      ∀ (ls : List Label) (a : ℚ),
        lookupMetric name ((r₁.incCounter name ls a).metrics)
          = some (Metric.counter (Counter.inc ls a c))) ∧
    (∀ (g : GaugeState) (r₁ : MetricsRegistry),
      MetricsRegistry.gauge name d₁ r = .ok (g, r₁) →
      MetricsRegistry.gauge name d₂ r₁ = .ok (g, r₁) ∧
      MetricsRegistry.counter name d₂ r₁
        = .error ("Metric " ++ name ++ " is not a Counter") ∧
      MetricsRegistry.histogram name d₂ r₁
        = .error ("Metric " ++ name ++ " is not a Histogram")) ∧
    (∀ (hs : HistogramState) (r₁ : MetricsRegistry),
      MetricsRegistry.histogram name d₁ r = .ok (hs, r₁) →
      MetricsRegistry.histogram name d₂ r₁ = .ok (hs, r₁) ∧
      MetricsRegistry.counter name d₂ r₁
        = .error ("Metric " ++ name ++ " is not a Counter") ∧
      MetricsRegistry.gauge name d₂ r₁
        = .error ("Metric " ++ name ++ " is not a Gauge")) := by
  refine ⟨?_, ?_, ?_⟩
  · intro c r₁ h
    have hl := counter_ok_lookupMetric name d₁ r r₁ c h
    refine ⟨?_, ?_, ?_, ?_⟩
    · unfold MetricsRegistry.counter
      rw [hl]
    · unfold MetricsRegistry.gauge
      rw [hl]
    · unfold MetricsRegistry.histogram
      rw [hl]
    · intro ls a
      exact lookupMetric_incCounterList name ls a r₁.metrics c hl
  · intro g r₁ h
    have hl := gauge_ok_lookupMetric name d₁ r r₁ g h
    refine ⟨?_, ?_, ?_⟩
    · unfold MetricsRegistry.gauge
      rw [hl]
    · unfold MetricsRegistry.counter
      rw [hl]
    · unfold MetricsRegistry.histogram
      rw [hl]
  · intro hs r₁ h
    have hl := histogram_ok_lookupMetric name d₁ r r₁ hs h
    refine ⟨?_, ?_, ?_⟩
    · unfold MetricsRegistry.histogram
      rw [hl]
    · unfold MetricsRegistry.counter
      rw [hl]
    · unfold MetricsRegistry.gauge
      rw [hl]

/-- Witness for C6: a counter registered under x, a gauge under g and a
histogram under h; each second same-kind call returns the stored instance,
and each cross-kind call under those names errors. -/
theorem registry_metric_identity_witness :
    (MetricsRegistry.counter "x" "d"
        ⟨[("x", Metric.counter (CounterState.init "x" "d"))]⟩
      = .ok (CounterState.init "x" "d",
          ⟨[("x", Metric.counter (CounterState.init "x" "d"))]⟩) ∧
     MetricsRegistry.gauge "x" "d"
        ⟨[("x", Metric.counter (CounterState.init "x" "d"))]⟩
      = .error ("Metric " ++ "x" ++ " is not a Gauge") ∧
     MetricsRegistry.histogram "x" "d"
        ⟨[("x", Metric.counter (CounterState.init "x" "d"))]⟩
      = .error ("Metric " ++ "x" ++ " is not a Histogram")) ∧
    (MetricsRegistry.gauge "g" "d"
        ⟨[("g", Metric.gauge (GaugeState.init "g" "d"))]⟩
      = .ok (GaugeState.init "g" "d",
          ⟨[("g", Metric.gauge (GaugeState.init "g" "d"))]⟩) ∧
     MetricsRegistry.counter "g" "d"
        ⟨[("g", Metric.gauge (GaugeState.init "g" "d"))]⟩
      = .error ("Metric " ++ "g" ++ " is not a Counter")) ∧
    (MetricsRegistry.histogram "h" "d"
        ⟨[("h", Metric.histogram (HistogramState.init "h" "d"))]⟩
      = .ok (HistogramState.init "h" "d",
          ⟨[("h", Metric.histogram (HistogramState.init "h" "d"))]⟩) ∧
     MetricsRegistry.gauge "h" "d"
        ⟨[("h", Metric.histogram (HistogramState.init "h" "d"))]⟩
      = .error ("Metric " ++ "h" ++ " is not a Gauge")) :=
  ⟨⟨((registry_metric_identity ⟨[]⟩ "x" "d" "d").1 (CounterState.init "x" "d")
      ⟨[("x", Metric.counter (CounterState.init "x" "d"))]⟩ rfl).1,
    ((registry_metric_identity ⟨[]⟩ "x" "d" "d").1 (CounterState.init "x" "d")
      ⟨[("x", Metric.counter (CounterState.init "x" "d"))]⟩ rfl).2.1,
    ((registry_metric_identity ⟨[]⟩ "x" "d" "d").1 (CounterState.init "x" "d")
      ⟨[("x", Metric.counter (CounterState.init "x" "d"))]⟩ rfl).2.2.1⟩,
   ⟨((registry_metric_identity ⟨[]⟩ "g" "d" "d").2.1 (GaugeState.init "g" "d")
      ⟨[("g", Metric.gauge (GaugeState.init "g" "d"))]⟩ rfl).1,
    ((registry_metric_identity ⟨[]⟩ "g" "d" "d").2.1 (GaugeState.init "g" "d")
      ⟨[("g", Metric.gauge (GaugeState.init "g" "d"))]⟩ rfl).2.1⟩,
   ⟨((registry_metric_identity ⟨[]⟩ "h" "d" "d").2.2 (HistogramState.init "h" "d")
      ⟨[("h", Metric.histogram (HistogramState.init "h" "d"))]⟩ rfl).1,
    ((registry_metric_identity ⟨[]⟩ "h" "d" "d").2.2 (HistogramState.init "h" "d")
      ⟨[("h", Metric.histogram (HistogramState.init "h" "d"))]⟩ rfl).2.2⟩⟩

/-- Claim C9 counterexample: `Counter.inc` does not guard against a negative
amount, so `inc(-1)` on a fresh counter strictly decreases the observed
value, refuting "the value observed after the call is greater than or
equal to the value observed before the call" for every amount. -/
theorem counter_inc_negative_counterexample :
    ¬ (Counter.viewValue [] (CounterState.init "c" "d") ≤
       Counter.viewValue [] (Counter.inc [] (-1) (CounterState.init "c" "d"))) := by
  unfold Counter.viewValue Counter.inc CounterState.init
  norm_num

/-- Claim C9, amended: for every call to `inc(amount)` with a non-negative
amount, the value observed afterwards through any view is greater than or
equal to the value observed before. -/
theorem counter_inc_monotone (s : CounterState) (L V : List Label) (a : ℚ)
    (ha : 0 ≤ a) :
    Counter.viewValue V s ≤ Counter.viewValue V (Counter.inc L a s) := by
  by_cases hL : L = [] <;> by_cases hV : V = []
  · subst hL
    subst hV
    simp only [Counter.viewValue, Counter.inc]
    norm_num
    linarith
  · subst hL
    simp [Counter.viewValue, Counter.inc, hV]
  · subst hV
    simp [Counter.viewValue, Counter.inc, hL]
  · simp only [Counter.viewValue, Counter.inc, ne_eq, hV, hL, not_false_eq_true,
      if_true, ite_true]
    by_cases hkey : sortLabels V = sortLabels L
    · rw [hkey, lookupLV_setLV_same]
      simp only [Option.getD_some]
      linarith
    · rw [lookupLV_setLV_ne _ _ _ hkey]

/-- Witness for C9 (amended): incrementing the source=dm view by 2. -/
theorem counter_inc_monotone_witness :
    Counter.viewValue [("source", "dm")] (CounterState.init "c" "d") ≤
      Counter.viewValue [("source", "dm")]
        (Counter.inc [("source", "dm")] 2 (CounterState.init "c" "d")) :=
  counter_inc_monotone (CounterState.init "c" "d") [("source", "dm")]
    [("source", "dm")] 2 (by norm_num)

/-- Claim C10: incrementing a labeled view leaves the parent's `_value` and the
top-level value field of `to_dict()` unchanged; the increment lands only
in the `labeled_values` mapping under the view's label key. -/
theorem counter_labeled_inc_parent_frame (s : CounterState) (L : List Label)
    (a : ℚ) (h : L ≠ []) :
    (Counter.inc L a s).value = s.value ∧
    Counter.viewValue [] (Counter.inc L a s) = Counter.viewValue [] s ∧
    (Counter.to_dict (Counter.inc L a s)).value = (Counter.to_dict s).value ∧
    lookupLV (sortLabels L) ((Counter.inc L a s).labeledValues)
      = some ((lookupLV (sortLabels L) s.labeledValues).getD 0 + a) := by
  unfold Counter.inc Counter.viewValue Counter.to_dict
  rw [if_pos h]
  exact ⟨rfl, rfl, rfl, lookupLV_setLV_same _ _ _⟩

/-- Witness for C10: source=dm view incremented by 3 on a fresh counter. -/
theorem counter_labeled_inc_parent_frame_witness :
    (Counter.inc [("source", "dm")] 3 (CounterState.init "c" "d")).value
      = (CounterState.init "c" "d").value ∧
    lookupLV (sortLabels [("source", "dm")])
        ((Counter.inc [("source", "dm")] 3 (CounterState.init "c" "d")).labeledValues)
      = some ((lookupLV (sortLabels [("source", "dm")])
          (CounterState.init "c" "d").labeledValues).getD 0 + 3) :=
  ⟨(counter_labeled_inc_parent_frame (CounterState.init "c" "d")
      [("source", "dm")] 3 (by decide)).1,
   (counter_labeled_inc_parent_frame (CounterState.init "c" "d")
      [("source", "dm")] 3 (by decide)).2.2.2⟩

/-- Claim C7: the identifier and UTC timestamp carried by the returned
`NotificationResult` are exactly the ones `NotificationHistory.create`
generated for the record (`uuid4()` / `datetime.now(timezone.utc)`),
independent of the Slack outcome: the same `freshId` and `now` appear for
a successful and for a failed send, and never the sender's `ts`. -/
theorem notification_id_timestamp_stable
    (cluster_id cluster_name notification_type message : String)
    (slackResult : SlackNotifyResult) (freshId now : String)
    (saveResult : Except String Unit) :
    (send_notification cluster_id cluster_name notification_type message
      slackResult freshId now saveResult).history.id = freshId ∧
    (send_notification cluster_id cluster_name notification_type message
      slackResult freshId now saveResult).history.created_at = now ∧
    (send_notification cluster_id cluster_name notification_type message
      slackResult freshId now saveResult).result.notification_id = freshId ∧
    (send_notification cluster_id cluster_name notification_type message
      slackResult freshId now saveResult).result.timestamp = some now ∧
    (send_notification cluster_id cluster_name notification_type message
      slackResult freshId now saveResult).result.success = slackResult.success :=
  ⟨rfl, rfl, rfl, rfl, rfl⟩

/-- Claim C8: a failure of the history save is swallowed: the
`NotificationResult` returned to the caller is identical (success flag,
identifier, channel, timestamp and error) to the one returned when
persistence succeeds; only the emitted log line differs. -/
theorem persistence_failure_swallowed
    (cluster_id cluster_name notification_type message : String)
    (slackResult : SlackNotifyResult) (freshId now : String) (emsg : String) :
    (send_notification cluster_id cluster_name notification_type message
      slackResult freshId now (.error emsg)).result
      = (send_notification cluster_id cluster_name notification_type message
          slackResult freshId now (.ok ())).result ∧
    (send_notification cluster_id cluster_name notification_type message
      slackResult freshId now (.error emsg)).saveLog
      = "Failed to save notification history" :=
  ⟨rfl, rfl⟩

end LabSlack
